import Mathlib

/-!
Shallow embedding of `eris-extension/src/netflix.ts`, the Netflix player
adapter of the Eris remote-control system.

JavaScript numbers are modelled as rationals (`ℚ`); `Math.round` is
Mathlib's `round` (both send `x` to `⌊x + 1/2⌋`).  A value that the
JavaScript code would obtain from the ambient page (the Netflix player
session, the video-metadata API, a DOM query) is modelled as a field of an
explicit `Env`; an access that would throw or yield `undefined` is
modelled with `Option`.  The commands (`back`, `forward`, `pause`, `play`,
`seek`, `volume`) act on the underlying player only through its methods,
so they are modelled as producing the list of method calls they perform.
-/

namespace Eris

/-- A JavaScript number. -/
abbrev JSNum := ℚ

/-- The loosely typed `_video` object surfaced by Netflix's metadata API;
only the fields the adapter reads are modelled.  `type` is the string the
code compares against `"show"`. -/
structure Video where
  type : String
  title : String
  artwork : String
  boxart : String
  storyart : String
  synopsis : String
  seq : Nat
  thumbs : String
  stills : String
  deriving DecidableEq

/-- The `episode` record built in `metadata` when the video is a show. -/
structure Episode where
  seq : Nat
  title : String
  thumbs : String
  stills : String
  synopsis : String
  deriving DecidableEq

/-- The `season` record built in `metadata`: the source assigns the empty
object literal, so the structure has no fields. -/
structure Season
  deriving DecidableEq

/-- The `Metadata` value returned by `metadata`.  `episode` and `season`
are optional fields in the TypeScript model, assigned only for shows. -/
structure Metadata where
  type : String
  title : String
  artwork : String
  boxart : String
  storyart : String
  synopsis : String
  episode : Option Episode := none
  season : Option Season := none
  deriving DecidableEq

/-- The `PlaybackStatus` record built by `status`.  `volume` is the result
of `Math.round`, hence an integer. -/
structure PlaybackStatus where
  duration : JSNum
  elapsed : JSNum
  metadata : Metadata
  isPlaying : Bool
  volume : ℤ
  deriving DecidableEq

/-- The readable surface of the underlying Netflix video player: one field
per getter the adapter calls. -/
structure PlayerState where
  currentTime : JSNum
  duration : JSNum
  movieId : Nat
  playing : Bool
  volume : JSNum
  deriving DecidableEq

/-- What `getVideoMetadataByVideoId(videoId)` exposes: `getVideo()._video`
and `getCurrentVideo()._video`. -/
structure MetadataSource where
  video : Video
  currentVideo : Video
  deriving DecidableEq

/-- The ambient page state the adapter reads through `window.netflix` and
`document`:
* `sessions` — `getAllPlayerSessionIds()`;
* `getVideoPlayerBySessionId` — the session-id → player lookup, taking an
  `Option` because the code may pass it the `undefined` result of indexing
  an empty filtered array, and returning an `Option` because the lookup
  may yield no player;
* `getVideoMetadataByVideoId` — the video-id → metadata lookup, `none`
  when the API has no data (the JavaScript would then throw);
* `blockedPlayButton` — the result of
  `document.querySelector("[data-uia=\"player-blocked-play\"]")`. -/
structure Env where
  sessions : List String
  getVideoPlayerBySessionId : Option String → Option PlayerState
  getVideoMetadataByVideoId : Nat → Option MetadataSource
  blockedPlayButton : Option Unit

/-- A method call performed on the underlying player or the DOM. -/
inductive Call where
  | seek (position : JSNum)
  | pause
  | play
  | setVolume (v : JSNum)
  | click (selector : String)
  deriving DecidableEq

/-- `const skip = 30 * 1000;` -/
def skip : JSNum := 30 * 1000

/-- JavaScript's `String.prototype.startsWith`, modelled as a prefix test
on the character sequence of the string. -/
def jsStartsWith (s p : String) : Bool :=
  List.isPrefixOf p.data s.data

/-- The session id `player()` selects:
`getAllPlayerSessionIds().filter(id => id.startsWith("watch-"))[0]`.
Indexing `[0]` on an empty array yields `undefined`, i.e. `none`. -/
def watchSessionId (ids : List String) : Option String :=
  (ids.filter (fun sessionId => jsStartsWith sessionId "watch-")).head?

/-- `player()`: looks up the selected session id (possibly `undefined`)
with `getVideoPlayerBySessionId`. -/
def player (env : Env) : Option PlayerState :=
  env.getVideoPlayerBySessionId (watchSessionId env.sessions)

/-- `back()`: `player().seek(player().getCurrentTime() - skip)`. -/
def back (env : Env) : Option (List Call) :=
  (player env).map (fun p => [Call.seek (p.currentTime - skip)])

/-- `forward()`: `player().seek(player().getCurrentTime() + skip)`. -/
def forward (env : Env) : Option (List Call) :=
  (player env).map (fun p => [Call.seek (p.currentTime + skip)])

/-- `pause()`: `player().pause()`. -/
def pause (env : Env) : Option (List Call) :=
  (player env).map (fun _ => [Call.pause])

/-- The selector `play()` queries for. -/
def blockedPlaySelector : String := "[data-uia=\"player-blocked-play\"]"

/-- `play()`: if the blocked-play button is in the DOM, click it;
otherwise `player().play()`. -/
def play (env : Env) : Option (List Call) :=
  match env.blockedPlayButton with
  | some _ => some [Call.click blockedPlaySelector]
  | none => (player env).map (fun _ => [Call.play])

/-- `seek(position)`: `player().seek(position)`. -/
def seek (env : Env) (position : JSNum) : Option (List Call) :=
  (player env).map (fun _ => [Call.seek position])

/-- `volume(vol)`: `player().setVolume(vol)`. -/
def volume (env : Env) (vol : JSNum) : Option (List Call) :=
  (player env).map (fun _ => [Call.setVolume vol])

/-- The pure body of `metadata(videoId)` once the metadata lookup has
succeeded: build the `Metadata` record from `getVideo()._video`, and for
`type === "show"` add the `episode` record from `getCurrentVideo()._video`
and the empty `season` object. -/
def metadataOf (src : MetadataSource) : Metadata :=
  let v := src.video
  let base : Metadata :=
    { type := v.type
      title := v.title
      artwork := v.artwork
      boxart := v.boxart
      storyart := v.storyart
      synopsis := v.synopsis }
  if v.type = "show" then
    let currentVideo := src.currentVideo
    { base with
      episode := some
        { seq := currentVideo.seq
          title := currentVideo.title
          thumbs := currentVideo.thumbs
          stills := currentVideo.stills
          synopsis := currentVideo.synopsis }
      season := some ⟨⟩ }
  else
    base

/-- `metadata(videoId)`: `none` models the JavaScript throwing when the
metadata API has no entry for the id. -/
def metadata (env : Env) (videoId : Nat) : Option Metadata :=
  (env.getVideoMetadataByVideoId videoId).map metadataOf

/-- The pure body of `status()` once the player and the metadata lookup
are available: the record literal of the source, with
`volume: Math.round(getVolume() * 100)`. -/
def statusOf (p : PlayerState) (src : MetadataSource) : PlaybackStatus :=
  { duration := p.duration
    elapsed := p.currentTime
    metadata := metadataOf src
    isPlaying := p.playing
    volume := round (p.volume * 100) }

/-- `status()`: read the player, read the metadata for `getMovieId()`,
build the snapshot.  `none` models the call throwing: the source has no
`try`/`catch` and keeps no previous snapshot. -/
def status (env : Env) : Option PlaybackStatus :=
  (player env).bind fun p =>
    (env.getVideoMetadataByVideoId p.movieId).map fun src => statusOf p src

/- Concrete sample data used by witnesses and counterexamples. -/

/-- A sample movie `_video` object. -/
def sampleMovie : Video :=
  { type := "movie"
    title := "Klaus"
    artwork := "art"
    boxart := "box"
    storyart := "story"
    synopsis := "syn"
    seq := 0
    thumbs := "th"
    stills := "st" }

/-- A sample show `_video` object. -/
def sampleShow : Video :=
  { sampleMovie with type := "show", title := "Dark" }

/-- A sample episode `_video` object. -/
def sampleEpisodeVideo : Video :=
  { type := "episode"
    title := "Secrets"
    artwork := "eart"
    boxart := "ebox"
    storyart := "estory"
    synopsis := "esyn"
    seq := 1
    thumbs := "eth"
    stills := "est" }

/-- Metadata source for the sample movie. -/
def sampleMovieSrc : MetadataSource :=
  { video := sampleMovie, currentVideo := sampleMovie }

/-- Metadata source for the sample show. -/
def sampleShowSrc : MetadataSource :=
  { video := sampleShow, currentVideo := sampleEpisodeVideo }

/-- A sample player state with fractional volume `0.8732`. -/
def samplePlayer : PlayerState :=
  { currentTime := 120
    duration := 3600
    movieId := 81177
    playing := true
    volume := 8732 / 10000 }

/-- A player state whose elapsed time exceeds its duration, as an
out-of-contract upstream player could report. -/
def badPlayer : PlayerState :=
  { samplePlayer with currentTime := 5, duration := 3 }

/-- An environment with a live watch session for `samplePlayer` and
metadata for the sample movie. -/
def sampleEnv : Env :=
  { sessions := ["watch-7"]
    getVideoPlayerBySessionId := fun sid =>
      if sid = some "watch-7" then some samplePlayer else none
    getVideoMetadataByVideoId := fun _ => some sampleMovieSrc
    blockedPlayButton := none }

/-- An environment with a watch session but a failing metadata API. -/
def metadataFailEnv : Env :=
  { sampleEnv with getVideoMetadataByVideoId := fun _ => none }

/-- An environment whose session list has no `watch-` session. -/
def noWatchEnv : Env :=
  { sessions := ["browse-1", "motion-billboard-2"]
    getVideoPlayerBySessionId := fun _ => none
    getVideoMetadataByVideoId := fun _ => some sampleMovieSrc
    blockedPlayButton := none }

/-- `sampleEnv` with the blocked-play button present in the DOM. -/
def blockedEnv : Env :=
  { sampleEnv with blockedPlayButton := some () }

/-- A player state whose current time is below 30 seconds. -/
def earlyPlayer : PlayerState :=
  { samplePlayer with currentTime := 10 }

/-- An environment whose player's current time is below 30 seconds. -/
def earlyEnv : Env :=
  { sampleEnv with
    getVideoPlayerBySessionId := fun sid =>
      if sid = some "watch-7" then some earlyPlayer else none }

/-- C1: `status` reports the player's volume multiplied by 100 and rounded
to the nearest integer (not truncated); volume `0.8732` yields `87`, and
any volume in `[0, 1]` yields an integer in `0..100`. -/
theorem status_volume_rounds (p : PlayerState) (src : MetadataSource) :
    (statusOf p src).volume = round (p.volume * 100) ∧
    (p.volume = 8732 / 10000 → (statusOf p src).volume = 87) ∧
    (0 ≤ p.volume → p.volume ≤ 1 →
      0 ≤ (statusOf p src).volume ∧ (statusOf p src).volume ≤ 100) := by
  have hv : (statusOf p src).volume = round (p.volume * 100) := rfl
  refine ⟨hv, ?_, ?_⟩
  · intro h
    rw [hv, h]
    norm_num [round_eq]
  · intro h0 h1
    have hm0 : (0 : ℚ) ≤ p.volume * 100 :=
      mul_nonneg h0 (by norm_num)
    have hm1 : p.volume * 100 ≤ 100 := by
      have := mul_le_mul_of_nonneg_right h1 (by norm_num : (0:ℚ) ≤ 100)
      linarith
    constructor
    · rw [hv, round_eq]
      exact Int.le_floor.mpr (by push_cast; linarith)
    · rw [hv, round_eq]
      have : (⌊p.volume * 100 + 1 / 2⌋ : ℤ) < 101 :=
        Int.floor_lt.mpr (by push_cast; linarith)
      omega

/-- Witness for C1 at volume `0.8732`. -/
theorem status_volume_rounds_witness :
    (statusOf samplePlayer sampleMovieSrc).volume = 87 ∧
    0 ≤ (statusOf samplePlayer sampleMovieSrc).volume ∧
    (statusOf samplePlayer sampleMovieSrc).volume ≤ 100 := by
  have h := status_volume_rounds samplePlayer sampleMovieSrc
  have hb := h.2.2 (by norm_num [samplePlayer]) (by norm_num [samplePlayer])
  exact ⟨h.2.1 rfl, hb.1, hb.2⟩

/-- C2: `status` passes the player's elapsed time and duration through
unmodified: the snapshot's `elapsed` is exactly `getCurrentTime()` and its
`duration` is exactly `getDuration()`, with no clamping or validation. -/
theorem status_passes_values_through (p : PlayerState) (src : MetadataSource) :
    (statusOf p src).elapsed = p.currentTime ∧
    (statusOf p src).duration = p.duration :=
  ⟨rfl, rfl⟩

/-- C3 counterexample: a player reporting `currentTime = 5` and
`duration = 3` yields a snapshot violating `elapsed ≤ duration`, so not
every snapshot satisfies the data-model bounds. -/
theorem status_bounds_counterexample :
    ¬ (0 ≤ (statusOf badPlayer sampleMovieSrc).elapsed ∧
       (statusOf badPlayer sampleMovieSrc).elapsed ≤
         (statusOf badPlayer sampleMovieSrc).duration ∧
       0 ≤ (statusOf badPlayer sampleMovieSrc).duration) := by
  intro h
  have hle := h.2.1
  norm_num [statusOf, badPlayer, samplePlayer] at hle

/-- C3 amended: `status` preserves the data-model bounds whenever the
underlying player satisfies them: if the player reports
`0 ≤ currentTime ≤ duration` then the snapshot has `duration ≥ 0` and
`0 ≤ elapsed ≤ duration`. -/
theorem status_preserves_player_bounds (p : PlayerState) (src : MetadataSource)
    (h0 : 0 ≤ p.currentTime) (hd : p.currentTime ≤ p.duration) :
    0 ≤ (statusOf p src).duration ∧
    0 ≤ (statusOf p src).elapsed ∧
    (statusOf p src).elapsed ≤ (statusOf p src).duration :=
  ⟨le_trans h0 hd, h0, hd⟩

/-- Witness for the amended C3 at the sample player. -/
theorem status_preserves_player_bounds_witness :
    0 ≤ (statusOf samplePlayer sampleMovieSrc).duration ∧
    0 ≤ (statusOf samplePlayer sampleMovieSrc).elapsed ∧
    (statusOf samplePlayer sampleMovieSrc).elapsed ≤
      (statusOf samplePlayer sampleMovieSrc).duration :=
  status_preserves_player_bounds samplePlayer sampleMovieSrc
    (by norm_num [samplePlayer]) (by norm_num [samplePlayer])

/-- C4 counterexample: with a live player but a failing metadata API, the
status read produces the null/error result `none` — the source keeps no
prior snapshot and substitutes nothing. -/
theorem status_failure_null_counterexample :
    status metadataFailEnv = none ∧
    ∀ s : PlaybackStatus, status metadataFailEnv ≠ some s := by
  have h : status metadataFailEnv = none := by
    simp [status, player, metadataFailEnv, sampleEnv, watchSessionId,
      jsStartsWith]
  exact ⟨h, fun s hs => by rw [h] at hs; exact Option.noConfusion hs⟩

/-- C4 amended: when a status read fails (the player or its metadata are
unavailable), the failure propagates as an absent result; `status` never
substitutes a prior snapshot. -/
theorem status_failure_propagates (env : Env) :
    (player env = none → status env = none) ∧
    (∀ p, player env = some p →
      env.getVideoMetadataByVideoId p.movieId = none → status env = none) := by
  constructor
  · intro h
    simp [status, h]
  · intro p hp hm
    simp [status, hp, hm]

/-- Witness for the amended C4 at the failing-metadata environment. -/
theorem status_failure_propagates_witness :
    status metadataFailEnv = none :=
  (status_failure_propagates metadataFailEnv).2 samplePlayer rfl rfl

/-- C5: for a show, `metadata` adds an `episode` record with exactly the
fields `seq`, `title`, `thumbs`, `stills`, `synopsis` taken from the
player's current video; for a movie neither `episode` nor `season` is
present. -/
theorem metadata_show_episode_movie_bare (src : MetadataSource) :
    (src.video.type = "show" →
      (metadataOf src).episode = some
        { seq := src.currentVideo.seq
          title := src.currentVideo.title
          thumbs := src.currentVideo.thumbs
          stills := src.currentVideo.stills
          synopsis := src.currentVideo.synopsis }) ∧
    (src.video.type = "movie" →
      (metadataOf src).episode = none ∧ (metadataOf src).season = none) := by
  constructor
  · intro h
    simp [metadataOf, h]
  · intro h
    simp [metadataOf, h]

/-- Witness for C5 at the sample show and sample movie. -/
theorem metadata_show_episode_movie_bare_witness :
    (metadataOf sampleShowSrc).episode = some
      { seq := sampleEpisodeVideo.seq
        title := sampleEpisodeVideo.title
        thumbs := sampleEpisodeVideo.thumbs
        stills := sampleEpisodeVideo.stills
        synopsis := sampleEpisodeVideo.synopsis } ∧
    (metadataOf sampleMovieSrc).episode = none ∧
    (metadataOf sampleMovieSrc).season = none := by
  refine ⟨(metadata_show_episode_movie_bare sampleShowSrc).1 rfl, ?_⟩
  exact (metadata_show_episode_movie_bare sampleMovieSrc).2 rfl

/-- C6: for every show, the `season` field of the produced metadata is
present but is the empty record (the source assigns the empty object
literal), whatever the video data. -/
theorem metadata_show_season_empty (src : MetadataSource)
    (h : src.video.type = "show") :
    (metadataOf src).season = some ⟨⟩ := by
  simp [metadataOf, h]

/-- Witness for C6 at the sample show. -/
theorem metadata_show_season_empty_witness :
    (metadataOf sampleShowSrc).season = some ⟨⟩ :=
  metadata_show_season_empty sampleShowSrc rfl

/-- C7: `seek` forwards exactly the requested position to the player's
`seek`, untransformed. -/
theorem seek_requests_exact_position (env : Env) (position : JSNum)
    (p : PlayerState) (h : player env = some p) :
    seek env position = some [Call.seek position] := by
  simp [seek, h]

/-- Witness for C7 at position 120 in the sample environment. -/
theorem seek_requests_exact_position_witness :
    seek sampleEnv 120 = some [Call.seek 120] :=
  seek_requests_exact_position sampleEnv 120 samplePlayer rfl

/-- C8: `back` and `forward` shift the position by the fixed `skip` of
30000 units (30 s in milliseconds), requesting `getCurrentTime() ∓ 30000`
from the player's `seek`; below 30000 the position `back` requests is
negative — no clamping to 0. -/
theorem back_forward_fixed_skip (env : Env) (p : PlayerState)
    (h : player env = some p) :
    skip = 30000 ∧
    back env = some [Call.seek (p.currentTime - 30000)] ∧
    forward env = some [Call.seek (p.currentTime + 30000)] ∧
    (p.currentTime < 30000 → p.currentTime - 30000 < 0) := by
  have hs : skip = 30000 := by norm_num [skip]
  refine ⟨hs, ?_, ?_, fun hlt => by linarith⟩
  · simp [back, h, hs]
  · simp [forward, h, hs]

/-- Witness for C8 at a player 10 units into playback. -/
theorem back_forward_fixed_skip_witness :
    skip = 30000 ∧
    back earlyEnv = some [Call.seek (earlyPlayer.currentTime - 30000)] ∧
    forward earlyEnv = some [Call.seek (earlyPlayer.currentTime + 30000)] ∧
    earlyPlayer.currentTime - 30000 < 0 := by
  have h := back_forward_fixed_skip earlyEnv earlyPlayer rfl
  exact ⟨h.1, h.2.1, h.2.2.1,
    h.2.2.2 (by norm_num [earlyPlayer, samplePlayer])⟩

/-- C9: `play` first queries the DOM for the blocked-play button; when it
is present, it clicks that button and performs no player call at all (in
particular no `play()`); only when it is absent does it call the player's
`play()`. -/
theorem play_prefers_blocked_button (env : Env) :
    (env.blockedPlayButton.isSome →
      play env = some [Call.click blockedPlaySelector] ∧
      ∀ calls, play env = some calls → Call.play ∉ calls) ∧
    (env.blockedPlayButton = none →
      play env = (player env).map fun _ => [Call.play]) := by
  constructor
  · intro h
    obtain ⟨u, hu⟩ := Option.isSome_iff_exists.mp h
    have hp : play env = some [Call.click blockedPlaySelector] := by
      simp [play, hu]
    refine ⟨hp, fun calls hc => ?_⟩
    rw [hp] at hc
    obtain rfl : [Call.click blockedPlaySelector] = calls :=
      Option.some.inj hc
    simp
  · intro h
    simp [play, h]

/-- Witness for C9: the blocked-button environment clicks, the sample
environment reaches the player's `play()`. -/
theorem play_prefers_blocked_button_witness :
    play blockedEnv = some [Call.click blockedPlaySelector] ∧
    Call.play ∉ [Call.click blockedPlaySelector] ∧
    play sampleEnv = (player sampleEnv).map fun _ => [Call.play] := by
  have hb := (play_prefers_blocked_button blockedEnv).1 rfl
  exact ⟨hb.1, hb.2 _ hb.1, (play_prefers_blocked_button sampleEnv).2 rfl⟩

/-- C10: `player` selects the first session id, in list order, that
starts with `"watch-"`; with no such session the unguarded `[0]` yields
`undefined`, which is passed to `getVideoPlayerBySessionId`, and when that
lookup yields nothing every adapter operation that reaches the player is
unusable. -/
theorem player_selects_first_watch_session :
    (∀ s rest, watchSessionId (s :: rest) =
      if jsStartsWith s "watch-" then some s else watchSessionId rest) ∧
    (∀ env : Env, (∀ s ∈ env.sessions, jsStartsWith s "watch-" = false) →
      watchSessionId env.sessions = none ∧
      player env = env.getVideoPlayerBySessionId none ∧
      (env.getVideoPlayerBySessionId none = none →
        back env = none ∧ forward env = none ∧ pause env = none ∧
        (env.blockedPlayButton = none → play env = none) ∧
        (∀ position, seek env position = none) ∧
        (∀ vol, volume env vol = none) ∧
        status env = none)) := by
  constructor
  · intro s rest
    by_cases h : jsStartsWith s "watch-" <;>
      simp [watchSessionId, List.filter, h]
  · intro env hall
    have hfil :
        env.sessions.filter (fun sessionId => jsStartsWith sessionId "watch-")
          = [] := by
      rw [List.filter_eq_nil_iff]
      intro a ha
      simp [hall a ha]
    have hnone : watchSessionId env.sessions = none := by
      simp [watchSessionId, hfil]
    refine ⟨hnone, by simp [player, hnone], fun hlk => ?_⟩
    have hp : player env = none := by
      simp [player, hnone, hlk]
    refine ⟨by simp [back, hp], by simp [forward, hp], by simp [pause, hp],
      fun hbtn => by simp [play, hbtn, hp], fun position => by simp [seek, hp],
      fun vol => by simp [volume, hp], by simp [status, hp]⟩

/-- Witness for C10 at a session list with no watch session. -/
theorem player_selects_first_watch_session_witness :
    watchSessionId noWatchEnv.sessions = none ∧
    player noWatchEnv = none ∧
    back noWatchEnv = none ∧
    play noWatchEnv = none ∧
    status noWatchEnv = none := by
  have h := player_selects_first_watch_session.2 noWatchEnv (by decide)
  have hops := h.2.2 rfl
  exact ⟨h.1, h.2.1.trans rfl, hops.1, hops.2.2.2.1 rfl, hops.2.2.2.2.2.2⟩

end Eris
